import Mathlib

/-!
Shallow embedding of the rust-text-editor program (src/main.rs) in Lean 4,
with theorems settling the specification claims about it.

Modelling conventions:
* Rust `usize` values are modelled as `Nat`; a debug-build panic caused by
  `usize` subtraction underflow is modelled by an explicit `Option`/`none`
  (the source is a debug-profile program; in release the wrapped value feeds
  `" ".repeat`, which also panics, so `none` is faithful in both profiles).
* The blocking input stream read by `read()` is modelled as a `List Nat` of
  byte values; `read` consumes from the front and an exhausted stream (which
  in the program blocks forever on the terminal) is `none`.
* `process::exit`, screen writes and `tcsetattr` calls are modelled by
  returning an explicit effect record rather than performing I/O.
* A Rust panic (e.g. `Option::unwrap` on `None`) is modelled as a distinct
  `panicked` outcome, never as a normal result.
-/

/-- Mirror of `libc::termios` as used by the program: flag words as naturals,
`c_cc` as the 32-entry control-character array. -/
structure Termios where
  c_iflag : Nat
  c_oflag : Nat
  c_cflag : Nat
  c_lflag : Nat
  c_line : Nat
  c_cc : List Nat
  c_ispeed : Nat
  c_ospeed : Nat
deriving DecidableEq, Repr

/-- Mirror of `struct Editor` from main.rs. -/
structure Editor where
  cursor_x : Nat
  cursor_y : Nat
  columns : Nat
  rows : Nat
  offset_y : Nat
  original_terminal_props : Option Termios
  content : List String
  filename : String
deriving DecidableEq, Repr

/-- Mirror of `const ARROW_UP: u16 = 1000`. -/
def ARROW_UP : Nat := 1000
/-- Mirror of `const ARROW_DOWN: u16 = 1001`. -/
def ARROW_DOWN : Nat := 1001
/-- Mirror of `const ARROW_RIGHT: u16 = 1002`. -/
def ARROW_RIGHT : Nat := 1002
/-- Mirror of `const ARROW_LEFT: u16 = 1003`. -/
def ARROW_LEFT : Nat := 1003
/-- Mirror of `const HOME: u16 = 1004`. -/
def HOME : Nat := 1004
/-- Mirror of `const END: u16 = 1005`. -/
def END : Nat := 1005
/-- Mirror of `const DEL: u16 = 1006`. -/
def DEL : Nat := 1006
/-- Mirror of `const PAGE_UP: u16 = 1007`. -/
def PAGE_UP : Nat := 1007
/-- Mirror of `const PAGE_DOWN: u16 = 1008`. -/
def PAGE_DOWN : Nat := 1008

/-- Embedding of `fn scroll(editor: &mut Editor)`: adjust `offset_y` so the cursor row is
inside the `rows`-high window.  Note `cursor_y >= rows + offset_y` guarantees
`cursor_y ≥ rows`, so the `Nat` subtraction below agrees with `usize`. -/
def scroll (e : Editor) : Editor :=
  if e.cursor_y ≥ e.rows + e.offset_y then
    { e with offset_y := e.cursor_y - e.rows + 1 }
  else if e.cursor_y < e.offset_y then
    { e with offset_y := e.cursor_y }
  else e

/-- Embedding of `fn move_cursor(key: u16, editor: &mut Editor)`. -/
def move_cursor (key : Nat) (e : Editor) : Editor :=
  if key = ARROW_UP then
    if e.cursor_y > 0 then { e with cursor_y := e.cursor_y - 1 } else e
  else if key = ARROW_DOWN then
    if e.cursor_y < e.content.length then { e with cursor_y := e.cursor_y + 1 } else e
  else if key = ARROW_LEFT then
    if e.cursor_x > 0 then { e with cursor_x := e.cursor_x - 1 } else e
  else if key = ARROW_RIGHT then
    if e.cursor_x < e.columns - 1 then { e with cursor_x := e.cursor_x + 1 } else e
  else if key = HOME then { e with cursor_x := 0 }
  else if key = END then { e with cursor_x := e.columns - 1 }
  else e

/-- Embedding of `fn read() -> char`: keep reading one byte until a non-zero byte arrives
(`while buffer[0] == 0`), then return it; the rest of the stream follows.
`none` models a stream that never yields a non-zero byte (the program would
block forever re-reading the terminal). -/
def readByte : List Nat → Option (Nat × List Nat)
  | [] => none
  | b :: rest => if b = 0 then readByte rest else some (b, rest)

/-- Embedding of `fn read_key() -> u16`: the escape-sequence decoding state machine,
byte values written in decimal (`27 = ESC`, `91 = '['`, `79 = 'O'`,
`65..68 = 'A'..'D'`, `72 = 'H'`, `70 = 'F'`, `48..57 = '0'..'9'`,
`126 = '~'`).  Returns the decoded key code and the unconsumed stream. -/
def read_key (input : List Nat) : Option (Nat × List Nat) :=
  match readByte input with
  | none => none
  | some (key, r1) =>
    if key ≠ 27 then some (key, r1)
    else
      match readByte r1 with
      | none => none
      | some (next_key, r2) =>
        if next_key ≠ 91 ∧ next_key ≠ 79 then some (next_key, r2)
        else
          match readByte r2 with
          | none => none
          | some (yet_another_key, r3) =>
            if next_key = 91 then
              if yet_another_key = 65 then some (ARROW_UP, r3)
              else if yet_another_key = 66 then some (ARROW_DOWN, r3)
              else if yet_another_key = 67 then some (ARROW_RIGHT, r3)
              else if yet_another_key = 68 then some (ARROW_LEFT, r3)
              else if yet_another_key = 72 then some (HOME, r3)
              else if yet_another_key = 70 then some (END, r3)
              else if 48 ≤ yet_another_key ∧ yet_another_key ≤ 57 then
                match readByte r3 with
                | none => none
                | some (yet_another_char, r4) =>
                  if yet_another_char ≠ 126 then some (yet_another_char, r4)
                  else if yet_another_key = 49 ∨ yet_another_key = 55 then some (HOME, r4)
                  else if yet_another_key = 51 then some (DEL, r4)
                  else if yet_another_key = 52 ∨ yet_another_key = 56 then some (END, r4)
                  else if yet_another_key = 53 then some (PAGE_UP, r4)
                  else if yet_another_key = 54 then some (PAGE_DOWN, r4)
                  else some (yet_another_key, r4)
              else some (yet_another_key, r3)
            else -- next_key == 'O'
              if yet_another_key = 72 then some (HOME, r3)
              else if yet_another_key = 70 then some (END, r3)
              else some (yet_another_key, r3)

/-- Embedding of `char::from_u32(key as u32)`: `none` exactly on the surrogate range
(`0xD800..0xDFFF`) and above `0x10FFFF` — the cases where the Rust call
returns `None` and the subsequent `.unwrap()` panics. -/
def char_from_u32 (k : Nat) : Option Nat :=
  if (55296 ≤ k ∧ k ≤ 57343) ∨ 1114111 < k then none else some k

/-- The externally visible effect of `fn exit(termios: &mut termios)`:
screen-clear and cursor-home writes, the terminal configurations passed to
`tcsetattr` (in order), and the `process::exit` status. -/
structure ExitEffect where
  writes : List String
  restored : List Termios
  exit_code : Nat
deriving DecidableEq, Repr

/-- Embedding of `fn exit`: clears the screen, homes the cursor, restores the saved
terminal configuration once, exits with status 0. -/
def exit_editor (t : Termios) : ExitEffect :=
  { writes := ["\x1b[2J", "\x1b[H"], restored := [t], exit_code := 0 }

/-- Outcome of one `handle_key` dispatch. -/
inductive HandleResult where
  | panicked
  | exited (eff : ExitEffect)
  | running (e : Editor)
deriving DecidableEq, Repr

/-- Embedding of `fn handle_key(key: u16, editor: &mut Editor)`: converts the key code to a
char (panicking on `None`), exits on `'q'` (code 113) — panicking if
`original_terminal_props` is `None` (`.unwrap()`) — moves the cursor on the
six navigation keys, ignores everything else. -/
def handle_key (key : Nat) (e : Editor) : HandleResult :=
  match char_from_u32 key with
  | none => .panicked
  | some key_char =>
    if key_char = 113 then
      match e.original_terminal_props with
      | none => .panicked
      | some t => .exited (exit_editor t)
    else if key ∈ [ARROW_UP, ARROW_DOWN, ARROW_LEFT, ARROW_RIGHT, HOME, END] then
      .running (move_cursor key e)
    else .running e

/-- Embedding of `fn get_file_name(editor: &Editor) -> &str`. -/
def get_file_name (e : Editor) : String :=
  if e.filename.length = 0 then "New File" else e.filename

/-- Embedding of `fn draw_status_bar(editor: &Editor, builder: &mut String)`: the status-bar
fragment appended to the frame.  `none` models the panic of
`editor.columns - status_message.len() - info_message.len()` when the two
segments together are wider than the terminal (usize underflow). -/
def draw_status_bar (e : Editor) : Option String :=
  let status_message := " Ari Code's Editor - v0.0.1 - Rust Edition - " ++ get_file_name e
  let info_message := "Line: " ++ toString e.cursor_y ++ " "
  if status_message.length + info_message.length ≤ e.columns then
    some ("\x1b[7m" ++ status_message
      ++ String.mk (List.replicate (e.columns - status_message.length - info_message.length) ' ')
      ++ info_message ++ "\x1b[0m")
  else none

/-- Embedding of `fn draw_cursor(editor: &Editor, builder: &mut String)`: the final
cursor-positioning sequence `ESC[{row};{col}H`.  `none` models the panic of
`editor.cursor_y - editor.offset_y` when `offset_y > cursor_y`
(usize underflow). -/
def draw_cursor (e : Editor) : Option String :=
  if e.cursor_y < e.offset_y then none
  else some ("\x1b[" ++ toString (e.cursor_y - e.offset_y + 1) ++ ";"
    ++ toString (e.cursor_x + 1) ++ "H")

/-- Outcome of `fn enable_raw_mode`: either the process exits with the
`tcgetattr` return code, or it proceeds with the raw-mode configuration
applied to the terminal and the original configuration saved in the editor. -/
inductive SetupResult where
  | exited (code : Int)
  | running (applied : Termios) (e : Editor)
deriving DecidableEq, Repr

/-- The raw-mode mutation applied to the fetched `termios` (Linux flag
values: ECHO=8, ICANON=2, IEXTEN=32768, ISIG=1, IXON=1024, ICRNL=256,
OPOST=1, VMIN=6, VTIME=5). -/
def raw_termios (t : Termios) : Termios :=
  { t with
    c_lflag := t.c_lflag &&& (4294967295 ^^^ (8 ||| 2 ||| 32768 ||| 1))
    c_iflag := t.c_iflag &&& (4294967295 ^^^ (1024 ||| 256))
    c_oflag := t.c_oflag &&& (4294967295 ^^^ 1)
    c_cc := ((t.c_cc).set 6 0).set 5 1 }

/-- Embedding of `fn enable_raw_mode(editor: &mut Editor)`: `tcgetattr`'s result is passed
in as `(return-code, fetched-configuration)`.  A non-zero return code makes
the process exit with that code (`process::exit(rc)`), before the main loop
can ever run; otherwise a copy of the original attributes is saved and the
raw configuration is applied. -/
def enable_raw_mode (tcgetattr_result : Int × Termios) (e : Editor) : SetupResult :=
  if tcgetattr_result.1 ≠ 0 then .exited tcgetattr_result.1
  else .running (raw_termios tcgetattr_result.2)
    { e with original_terminal_props := some tcgetattr_result.2 }

/-! ### Sample values used by witness theorems -/

/-- A concrete all-zero terminal configuration. -/
def T0 : Termios :=
  { c_iflag := 0, c_oflag := 0, c_cflag := 0, c_lflag := 0, c_line := 0
    c_cc := List.replicate 32 0, c_ispeed := 0, c_ospeed := 0 }

/-- A concrete editor state, matching the zeroed initial state of `main`
except for a 40-column, 10-row window. -/
def E0 : Editor :=
  { cursor_x := 0, cursor_y := 0, columns := 40, rows := 10, offset_y := 0
    original_terminal_props := none, content := [], filename := "" }

/-- The state of claim C5: 40 columns, filename "a.txt", cursor on line 3. -/
def E40 : Editor := { E0 with cursor_y := 3, filename := "a.txt" }

/-! ### Helper lemmas -/

/-- Every byte returned by `readByte` is non-zero (the zero-skipping loop). -/
theorem readByte_ne_zero (s : List Nat) (b : Nat) (rest : List Nat)
    (h : readByte s = some (b, rest)) : b ≠ 0 := by
  induction s with
  | nil => simp [readByte] at h
  | cons hd tl ih =>
    by_cases hhd : hd = 0
    · exact ih (by simpa [readByte, hhd] using h)
    · simp [readByte, hhd] at h
      omega

/-- One step of `move_cursor` preserves `columns` and `content`, and keeps the
cursor inside `[0, content.length] × [0, columns - 1]`. -/
theorem move_cursor_step (k : Nat) (e : Editor)
    (hy : e.cursor_y ≤ e.content.length) (hx : e.cursor_x ≤ e.columns - 1) :
    (move_cursor k e).columns = e.columns ∧
    (move_cursor k e).content = e.content ∧
    (move_cursor k e).cursor_y ≤ e.content.length ∧
    (move_cursor k e).cursor_x ≤ e.columns - 1 := by
  unfold move_cursor
  repeat' split
  all_goals simp_all
  all_goals omega

/-! ### Claims -/

/-- C1: for every editor state with `rows ≥ 1`, one call to `scroll`
establishes `offset_y ≤ cursor_y < offset_y + rows`; if the cursor row was
already in the window `offset_y` is unchanged, if `cursor_y ≥ offset_y + rows`
the new offset is `cursor_y - rows + 1`, and if `cursor_y < offset_y` the new
offset is `cursor_y`. -/
theorem scroll_invariant (e : Editor) (hrows : 1 ≤ e.rows) :
    ((scroll e).offset_y ≤ (scroll e).cursor_y ∧
      (scroll e).cursor_y < (scroll e).offset_y + (scroll e).rows) ∧
    (e.offset_y ≤ e.cursor_y ∧ e.cursor_y < e.offset_y + e.rows →
      (scroll e).offset_y = e.offset_y) ∧
    (e.offset_y + e.rows ≤ e.cursor_y →
      (scroll e).offset_y = e.cursor_y - e.rows + 1) ∧
    (e.cursor_y < e.offset_y → (scroll e).offset_y = e.cursor_y) := by
  unfold scroll
  repeat' split
  all_goals simp_all
  all_goals omega

/-- Witness for C1 at a concrete state (rows = 2, cursor below the window). -/
theorem scroll_invariant_witness :
    1 ≤ ({ E0 with rows := 2, cursor_y := 5, offset_y := 1 } : Editor).rows ∧
    ((scroll { E0 with rows := 2, cursor_y := 5, offset_y := 1 }).offset_y ≤
        (scroll { E0 with rows := 2, cursor_y := 5, offset_y := 1 }).cursor_y ∧
      (scroll { E0 with rows := 2, cursor_y := 5, offset_y := 1 }).cursor_y <
        (scroll { E0 with rows := 2, cursor_y := 5, offset_y := 1 }).offset_y +
          (scroll { E0 with rows := 2, cursor_y := 5, offset_y := 1 }).rows) :=
  ⟨by decide, (scroll_invariant { E0 with rows := 2, cursor_y := 5, offset_y := 1 }
      (by decide)).1⟩

/-- C2: the escape sequences `ESC [ A/B/C/D/H/F`, `ESC O H/F` and
`ESC [ 3/5/6 ~` decode to the corresponding navigation keys, consuming exactly
the bytes of the sequence: whatever follows is returned untouched. -/
theorem read_key_escape_sequences (rest : List Nat) :
    read_key (27 :: 91 :: 65 :: rest) = some (ARROW_UP, rest) ∧
    read_key (27 :: 91 :: 66 :: rest) = some (ARROW_DOWN, rest) ∧
    read_key (27 :: 91 :: 67 :: rest) = some (ARROW_RIGHT, rest) ∧
    read_key (27 :: 91 :: 68 :: rest) = some (ARROW_LEFT, rest) ∧
    read_key (27 :: 91 :: 72 :: rest) = some (HOME, rest) ∧
    read_key (27 :: 91 :: 70 :: rest) = some (END, rest) ∧
    read_key (27 :: 79 :: 72 :: rest) = some (HOME, rest) ∧
    read_key (27 :: 79 :: 70 :: rest) = some (END, rest) ∧
    read_key (27 :: 91 :: 51 :: 126 :: rest) = some (DEL, rest) ∧
    read_key (27 :: 91 :: 53 :: 126 :: rest) = some (PAGE_UP, rest) ∧
    read_key (27 :: 91 :: 54 :: 126 :: rest) = some (PAGE_DOWN, rest) := by
  refine ⟨?_, ?_, ?_, ?_, ?_, ?_, ?_, ?_, ?_, ?_, ?_⟩
  all_goals simp [read_key, readByte]

/-- C3: from any state with `columns ≥ 1`, `cursor_y ≤ content.length` and
`cursor_x ≤ columns - 1`, every finite sequence of `move_cursor` calls with
navigation keys keeps `cursor_y ∈ [0, content.length]` and
`cursor_x ∈ [0, columns - 1]` (lower bounds hold because the coordinates are
naturals, matching `usize`). -/
theorem move_cursor_seq_bounds (ks : List Nat) (e : Editor)
    (hcols : 1 ≤ e.columns)
    (hkeys : ∀ k ∈ ks, k ∈ [ARROW_UP, ARROW_DOWN, ARROW_LEFT, ARROW_RIGHT, HOME, END])
    (hy : e.cursor_y ≤ e.content.length)
    (hx : e.cursor_x ≤ e.columns - 1) :
    (ks.foldl (fun s k => move_cursor k s) e).cursor_y ≤
      (ks.foldl (fun s k => move_cursor k s) e).content.length ∧
    (ks.foldl (fun s k => move_cursor k s) e).cursor_x ≤
      (ks.foldl (fun s k => move_cursor k s) e).columns - 1 := by
  induction ks generalizing e with
  | nil => exact ⟨hy, hx⟩
  | cons k tl ih =>
    obtain ⟨hc, hcont, hy', hx'⟩ := move_cursor_step k e hy hx
    simpa [List.foldl_cons] using
      ih (move_cursor k e) (hc ▸ hcols)
        (fun k' hk' => hkeys k' (List.mem_cons_of_mem k hk'))
        (hcont ▸ hy') (hc ▸ hx')

/-- Witness for C3: three navigation keys applied to a concrete in-bounds
state. -/
theorem move_cursor_seq_bounds_witness :
    (1 ≤ ({ E0 with content := ["ab", "cd"] } : Editor).columns ∧
      (∀ k ∈ [ARROW_DOWN, ARROW_RIGHT, END, ARROW_UP],
        k ∈ [ARROW_UP, ARROW_DOWN, ARROW_LEFT, ARROW_RIGHT, HOME, END]) ∧
      ({ E0 with content := ["ab", "cd"] } : Editor).cursor_y ≤
        ({ E0 with content := ["ab", "cd"] } : Editor).content.length ∧
      ({ E0 with content := ["ab", "cd"] } : Editor).cursor_x ≤
        ({ E0 with content := ["ab", "cd"] } : Editor).columns - 1) ∧
    (([ARROW_DOWN, ARROW_RIGHT, END, ARROW_UP].foldl (fun s k => move_cursor k s)
        { E0 with content := ["ab", "cd"] }).cursor_y ≤
      ([ARROW_DOWN, ARROW_RIGHT, END, ARROW_UP].foldl (fun s k => move_cursor k s)
        { E0 with content := ["ab", "cd"] }).content.length ∧
      ([ARROW_DOWN, ARROW_RIGHT, END, ARROW_UP].foldl (fun s k => move_cursor k s)
        { E0 with content := ["ab", "cd"] }).cursor_x ≤
      ([ARROW_DOWN, ARROW_RIGHT, END, ARROW_UP].foldl (fun s k => move_cursor k s)
        { E0 with content := ["ab", "cd"] }).columns - 1) :=
  ⟨⟨by decide, by decide, by decide, by decide⟩,
    move_cursor_seq_bounds [ARROW_DOWN, ARROW_RIGHT, END, ARROW_UP]
      { E0 with content := ["ab", "cd"] } (by decide) (by decide) (by decide) (by decide)⟩

/-- C4 counterexample: in a state whose saved terminal configuration is absent
(`original_terminal_props = None`, the state `main` starts from), dispatching
the literal key 'q' (code 113) panics on `Option::unwrap`, so the process does
not exit with status 0, clears no screen and restores nothing — the claim is
false for this state. -/
theorem handle_key_q_no_saved_mode_panics :
    handle_key 113 E0 = HandleResult.panicked ∧
    E0.original_terminal_props = none := by
  constructor
  · rfl
  · rfl

/-- C4 amended: for every editor state whose saved terminal configuration is
present, dispatching the literal key 'q' terminates the process with exit
status 0 after writing the screen-clear and cursor-home sequences and
re-applying the saved configuration exactly once. -/
theorem handle_key_q_exits (e : Editor) (t : Termios)
    (h : e.original_terminal_props = some t) :
    handle_key 113 e =
      HandleResult.exited
        { writes := ["\x1b[2J", "\x1b[H"], restored := [t], exit_code := 0 } := by
  unfold handle_key char_from_u32
  rw [if_neg (by omega)]
  simp [h, exit_editor]

/-- Witness for C4 (amended) at a concrete state carrying a saved
configuration. -/
theorem handle_key_q_exits_witness :
    ({ E0 with original_terminal_props := some T0 } : Editor).original_terminal_props
        = some T0 ∧
    handle_key 113 { E0 with original_terminal_props := some T0 } =
      HandleResult.exited
        { writes := ["\x1b[2J", "\x1b[H"], restored := [T0], exit_code := 0 } :=
  ⟨rfl, handle_key_q_exits { E0 with original_terminal_props := some T0 } T0 rfl⟩

/-- C5 counterexample: in the claimed state (40 columns, filename "a.txt",
cursor on line 3) the two status-bar segments are already 58 characters wide,
so `columns - status_message.len() - info_message.len()` underflows and the
program panics instead of producing a row — no status-bar row with 40 visible
characters exists. -/
theorem draw_status_bar_40_panics :
    draw_status_bar E40 = none ∧ E40.columns = 40 ∧ E40.filename = "a.txt" ∧
    E40.cursor_y = 3 := ⟨rfl, rfl, rfl, rfl⟩

/-- C5 amended: with filename "a.txt" and `cursor_y = 3`, for every terminal
width `c ≥ 58` (the combined width of the two segments) `draw_status_bar`
produces a row with exactly `c` visible characters between the
reverse-video-on and reset sequences; the claimed width 40 lies below that
bound and makes the padding subtraction underflow. -/
theorem draw_status_bar_visible_width (c : Nat) (hc : 58 ≤ c) :
    ∃ mid : String,
      draw_status_bar { E40 with columns := c } =
        some ("\x1b[7m" ++ mid ++ "\x1b[0m") ∧ mid.length = c := by
  have h1 : (" Ari Code's Editor - v0.0.1 - Rust Edition - " ++ "a.txt" : String).length = 50 := by
    rfl
  have h2 : ("Line: " ++ toString (3:Nat) ++ " " : String).length = 8 := by rfl
  refine ⟨(" Ari Code's Editor - v0.0.1 - Rust Edition - " ++ "a.txt")
      ++ String.mk (List.replicate (c - 58) ' ')
      ++ ("Line: " ++ toString (3:Nat) ++ " "), ?_, ?_⟩
  · have hfn : get_file_name { E40 with columns := c } = "a.txt" := rfl
    have hcy : ({ E40 with columns := c } : Editor).cursor_y = 3 := rfl
    simp only [draw_status_bar]
    rw [hfn, hcy, h1, h2, show c - 50 - 8 = c - 58 by omega, if_pos (by omega)]
    simp only [Option.some.injEq, String.ext_iff, String.data_append, List.append_assoc]
  · rw [String.length_append, String.length_append, h1, h2, String.length_mk,
      List.length_replicate]
    omega

/-- Witness for C5 (amended) at 60 columns. -/
theorem draw_status_bar_visible_width_witness :
    58 ≤ 60 ∧
    ∃ mid : String,
      draw_status_bar { E40 with columns := 60 } =
        some ("\x1b[7m" ++ mid ++ "\x1b[0m") ∧ mid.length = 60 :=
  ⟨by decide, draw_status_bar_visible_width 60 (by decide)⟩

/-- C6 counterexample: for the input stream `[0, 113]` the first byte `0` is
not the escape byte, yet the decoder does not return a literal key `0` with
one byte consumed — `read()` silently discards the NUL byte and the decoder
returns the key 113 having consumed both bytes. -/
theorem read_key_zero_first_byte :
    (0:Nat) ≠ 27 ∧ read_key [0, 113] ≠ some (0, [113]) ∧
    read_key [0, 113] = some (113, []) := by
  refine ⟨by decide, ?_, by rfl⟩
  intro h
  simp [read_key, readByte] at h

/-- C6 amended: for every input stream whose first byte is neither `0` (which
`read()` silently discards) nor the escape byte `27`, the decoder returns a
literal key carrying exactly that byte value, consuming exactly one byte. -/
theorem read_key_literal (b : Nat) (rest : List Nat) (hb0 : b ≠ 0) (hbe : b ≠ 27) :
    read_key (b :: rest) = some (b, rest) := by
  simp [read_key, readByte, hb0, hbe]

/-- Witness for C6 (amended): the byte 'q' (113) followed by more input. -/
theorem read_key_literal_witness :
    (113:Nat) ≠ 0 ∧ (113:Nat) ≠ 27 ∧ read_key [113, 65, 66] = some (113, [65, 66]) :=
  ⟨by decide, by decide, read_key_literal 113 [65, 66] (by decide) (by decide)⟩

/-- C7: every key in the decoder's output range (a byte value below 256 or a
named key code 1000–1008) that is neither the literal 'q' (113) nor one of the
six navigation keys leaves the editor state completely unchanged and the loop
running. -/
theorem handle_key_ignores_other_keys (k : Nat) (e : Editor)
    (hk : k < 256 ∨ (1000 ≤ k ∧ k ≤ 1008))
    (hq : k ≠ 113)
    (hnav : k ∉ [ARROW_UP, ARROW_DOWN, ARROW_LEFT, ARROW_RIGHT, HOME, END]) :
    handle_key k e = HandleResult.running e := by
  have h1 : char_from_u32 k = some k := by
    unfold char_from_u32
    rw [if_neg (by omega)]
  unfold handle_key
  rw [h1]
  simp only [hq, if_false, if_neg hnav]

/-- Witness for C7: the Delete key (code 1006) at a concrete state. -/
theorem handle_key_ignores_other_keys_witness :
    ((1006:Nat) < 256 ∨ (1000 ≤ (1006:Nat) ∧ (1006:Nat) ≤ 1008)) ∧
    (1006:Nat) ≠ 113 ∧
    (1006:Nat) ∉ [ARROW_UP, ARROW_DOWN, ARROW_LEFT, ARROW_RIGHT, HOME, END] ∧
    handle_key 1006 E0 = HandleResult.running E0 :=
  ⟨by decide, by decide, by decide,
    handle_key_ignores_other_keys 1006 E0 (by decide) (by decide) (by decide)⟩

/-- C8: if `tcgetattr` returns a non-zero code during raw-mode setup, the
process exits immediately with that code — enable_raw_mode yields an `exited`
outcome, never the `running` outcome that the main loop requires. -/
theorem enable_raw_mode_failure (rc : Int) (t : Termios) (e : Editor) (h : rc ≠ 0) :
    enable_raw_mode (rc, t) e = SetupResult.exited rc := by
  simp [enable_raw_mode, h]

/-- Witness for C8 at the usual `tcgetattr` failure code `-1`. -/
theorem enable_raw_mode_failure_witness :
    (-1 : Int) ≠ 0 ∧ enable_raw_mode (-1, T0) E0 = SetupResult.exited (-1) :=
  ⟨by decide, enable_raw_mode_failure (-1) T0 E0 (by decide)⟩

/-- C9: whenever `offset_y ≤ cursor_y` (which `scroll` establishes before
every render), `draw_cursor` is total — the `usize` subtraction
`cursor_y - offset_y` does not underflow, so the natural-number difference
agrees with the integer one — and the emitted sequence addresses row
`cursor_y - offset_y + 1` and column `cursor_x + 1` (1-based). -/
theorem draw_cursor_total (e : Editor) (h : e.offset_y ≤ e.cursor_y) :
    e.offset_y + (e.cursor_y - e.offset_y) = e.cursor_y ∧
    ∃ r c : Nat,
      draw_cursor e = some ("\x1b[" ++ toString r ++ ";" ++ toString c ++ "H") ∧
      (r : Int) = (e.cursor_y : Int) - (e.offset_y : Int) + 1 ∧ c = e.cursor_x + 1 := by
  refine ⟨by omega, e.cursor_y - e.offset_y + 1, e.cursor_x + 1, ?_, by omega, rfl⟩
  unfold draw_cursor
  rw [if_neg (by omega)]

/-- Witness for C9 at a concrete visible-cursor state. -/
theorem draw_cursor_total_witness :
    ({ E0 with cursor_y := 5, offset_y := 2, cursor_x := 3 } : Editor).offset_y ≤
      ({ E0 with cursor_y := 5, offset_y := 2, cursor_x := 3 } : Editor).cursor_y ∧
    ∃ r c : Nat,
      draw_cursor { E0 with cursor_y := 5, offset_y := 2, cursor_x := 3 } =
        some ("\x1b[" ++ toString r ++ ";" ++ toString c ++ "H") ∧
      (r : Int) = ((5:Nat) : Int) - ((2:Nat) : Int) + 1 ∧ c = 3 + 1 :=
  ⟨by decide, (draw_cursor_total { E0 with cursor_y := 5, offset_y := 2, cursor_x := 3 }
      (by decide)).2⟩

set_option maxHeartbeats 2000000 in
/-- Helper for C10: every key code returned by the decoder is non-zero —
literal keys come from readByte (which never returns 0) and the named
navigation codes are 1000–1008. -/
theorem read_key_key_ne_zero : ∀ input k rest, read_key input = some (k, rest) → k ≠ 0 := by
  intro input k rest h
  unfold read_key at h
  split at h
  · exact Option.noConfusion h
  · rename_i key r1 h1
    by_cases h27 : key ≠ 27
    · rw [if_pos h27] at h
      injection h with h'
      injection h' with hk hr
      subst hk
      exact readByte_ne_zero _ _ _ h1
    · rw [if_neg h27] at h
      split at h
      · exact Option.noConfusion h
      · rename_i next_key r2 h2
        by_cases h91 : next_key ≠ 91 ∧ next_key ≠ 79
        · rw [if_pos h91] at h
          injection h with h'
          injection h' with hk hr
          subst hk
          exact readByte_ne_zero _ _ _ h2
        · rw [if_neg h91] at h
          split at h
          · exact Option.noConfusion h
          · rename_i yak r3 h3
            by_cases hnk : next_key = 91
            · rw [if_pos hnk] at h
              rcases h4 : readByte r3 with _ | ⟨yac, r4⟩
              · rw [h4] at h
                dsimp only at h
                repeat' split at h
                all_goals
                  first
                    | exact Option.noConfusion h
                    | (injection h with h'
                       injection h' with hk hr
                       subst hk
                       first
                         | decide
                         | exact readByte_ne_zero _ _ _ (by assumption))
              · rw [h4] at h
                dsimp only at h
                by_cases e126 : yac ≠ 126
                · rw [if_pos e126] at h
                  repeat' split at h
                  all_goals
                    first
                      | exact Option.noConfusion h
                      | (injection h with h'
                         injection h' with hk hr
                         subst hk
                         first
                           | decide
                           | exact readByte_ne_zero _ _ _ (by assumption))
                · rw [if_neg e126] at h
                  by_cases e17 : yak = 49 ∨ yak = 55
                  · rw [if_pos e17] at h
                    repeat' split at h
                    all_goals
                      first
                        | exact Option.noConfusion h
                        | (injection h with h'
                           injection h' with hk hr
                           subst hk
                           first
                             | decide
                             | exact readByte_ne_zero _ _ _ (by assumption))
                  · rw [if_neg e17] at h
                    by_cases e48 : yak = 52 ∨ yak = 56
                    · rw [if_pos e48] at h
                      repeat' split at h
                      all_goals
                        first
                          | exact Option.noConfusion h
                          | (injection h with h'
                             injection h' with hk hr
                             subst hk
                             first
                               | decide
                               | exact readByte_ne_zero _ _ _ (by assumption))
                    · rw [if_neg e48] at h
                      repeat' split at h
                      all_goals
                        first
                          | exact Option.noConfusion h
                          | (injection h with h'
                             injection h' with hk hr
                             subst hk
                             first
                               | decide
                               | exact readByte_ne_zero _ _ _ (by assumption))
            · rw [if_neg hnk] at h
              repeat' split at h
              all_goals
                first
                  | exact Option.noConfusion h
                  | (injection h with h'
                     injection h' with hk hr
                     subst hk
                     first
                       | decide
                       | exact readByte_ne_zero _ _ _ (by assumption))

/-- C10: the low-level reader returns the first non-zero byte of the stream,
silently consuming and discarding any leading zero (NUL) bytes, and
consequently no key event delivered to the dispatcher carries the byte
value 0. -/
theorem read_skips_zeros_and_no_zero_key :
    (∀ zs b rest, (∀ z ∈ zs, z = 0) → b ≠ 0 →
      readByte (zs ++ b :: rest) = some (b, rest)) ∧
    (∀ input k rest, read_key input = some (k, rest) → k ≠ 0) := by
  constructor
  · intro zs b rest
    induction zs with
    | nil =>
      intro _ hb
      simp [readByte, hb]
    | cons z tl ih =>
      intro hz hb
      have hz0 : z = 0 := hz z (List.mem_cons_self z tl)
      simp only [List.cons_append, readByte, hz0, if_pos]
      exact ih (fun z' hz' => hz z' (List.mem_cons_of_mem z hz')) hb
  · exact read_key_key_ne_zero

/-- Witness for C10: two NUL bytes are skipped before the byte 113, and the
decoded key 113 is non-zero. -/
theorem read_skips_zeros_and_no_zero_key_witness :
    readByte ([0, 0] ++ 113 :: [65]) = some (113, [65]) ∧ (113 : Nat) ≠ 0 :=
  ⟨read_skips_zeros_and_no_zero_key.1 [0, 0] 113 [65] (by decide) (by decide),
   read_skips_zeros_and_no_zero_key.2 [113] 113 [] (by rfl)⟩
